import Mathlib

/-!
Shallow embedding of the background-worker subsystem of the stories-backend
repository (files `internal/worker/queue.go`, `internal/worker/manager.go`,
and the parts of `internal/storage/story_store.go` the expiration sweeper
depends on).

Modelling conventions:
* timestamps are `Int` values in Unix seconds (the code stores
  `RunAt.Unix()` as the sorted-set score and compares it against
  `time.Now().Unix()`); `time.Minute` is 60 seconds, one hour is 3600;
* a handler `func(*Job) error` is a function `Job → Option String`
  (`none` = success, `some e` = error, a timeout being just one error);
* Go's `int`/`int64` counters are `Nat` (they only ever increase from 0
  here, so no overflow or sign behaviour is relevant to the claims);
* effectful store calls (Redis `ZAdd`/`ZRangeByScore`/`ZRem`, Postgres
  queries) are modelled by explicit state passing on pure data.
-/

/-- A background job, from `Job` in `internal/worker/queue.go` (lines
19-27).  The JSON payload map is modelled as an association list; its
contents never influence the queue logic under study. -/
structure Job where
  id : String
  jobType : String
  payload : List (String × String)
  createdAt : Int
  runAt : Int
  attempts : Nat
  maxRetries : Nat
deriving Repr, DecidableEq

/-- Process-local queue counters, from `QueueStats` (lines 51-58).  Only
the three monotone counters matter to the claims; `LastProcessed`,
`WorkersActive` and `QueueLength` are omitted as they are overwritten on
read and never asserted on. -/
structure QueueStats where
  jobsProcessed : Nat
  jobsFailed : Nat
  jobsRetried : Nat
deriving Repr, DecidableEq

/-- Transcription of `Queue.updateStats` (lines 364-380): a non-success
call increments `JobsFailed`, a success increments `JobsProcessed`, and a
retry flag additionally increments `JobsRetried`. -/
def updateStats (s : QueueStats) (success retry : Bool) : QueueStats :=
  let s1 :=
    if success then { s with jobsProcessed := s.jobsProcessed + 1 }
    else { s with jobsFailed := s.jobsFailed + 1 }
  if retry then { s1 with jobsRetried := s1.jobsRetried + 1 } else s1

/-- The `maxRetries` resolution chain of `Queue.processJob` (lines
329-335): the job's own value, else the queue config's value, else 3. -/
def effectiveMaxRetries (jobMaxRetries cfgMaxRetries : Nat) : Nat :=
  let m := if jobMaxRetries = 0 then cfgMaxRetries else jobMaxRetries
  if m = 0 then 3 else m

/-- A job handler `func(*Job) error`: `none` is a nil error. -/
abbrev JobHandler := Job → Option String

/-- Everything `Queue.processJob` does that is observable to the claims:
the updated stats, the job re-inserted for retry (if any), the returned
error, and whether the registered handler was actually invoked. -/
structure ProcessResult where
  stats : QueueStats
  requeued : Option Job
  ret : Option String
  invoked : Bool
deriving Repr, DecidableEq

/-- Transcription of `Queue.processJob` (lines 275-362).
`handlers` is the registry; `enqueueOk` says whether the `q.enqueueJob`
call on the retry path succeeds (line 342).  Control flow mirrors the
source: no registered handler logs, calls `updateStats(false,false)` and
returns nil; otherwise `Attempts` is incremented, the handler runs, and
on failure the job is re-enqueued with `runAt = now + attempts*1min`
when `attempts < maxRetries` and the insert succeeds (stats updated as a
retry, return nil); in every other failure case stats are updated as a
failure and the original handler error is returned. -/
def processJob (handlers : String → Option JobHandler) (cfgMaxRetries : Nat)
    (now : Int) (enqueueOk : Bool) (job : Job) (stats : QueueStats) :
    ProcessResult :=
  match handlers job.jobType with
  | none => ⟨updateStats stats false false, none, none, false⟩
  | some handler =>
    let job1 := { job with attempts := job.attempts + 1 }
    match handler job1 with
    | none => ⟨updateStats stats true false, none, none, true⟩
    | some err =>
      if job1.attempts < effectiveMaxRetries job1.maxRetries cfgMaxRetries then
        let retryDelay : Int := (job1.attempts : Int) * 60
        let job2 := { job1 with runAt := now + retryDelay }
        if enqueueOk then ⟨updateStats stats false true, some job2, none, true⟩
        else ⟨updateStats stats false false, none, some err, true⟩
      else ⟨updateStats stats false false, none, some err, true⟩

/-- Whole-lifecycle run of one job through the queue: the job is
processed, and as long as `processJob` re-enqueues it for retry, it is
claimed again at its new due time (`j.runAt`, the earliest poll that can
claim it) and processed again.  Returns the final stats together with
the number of handler invocations (executed attempts).  `fuel` bounds
the recursion; every run in this development ends by the job being
dropped, not by fuel exhaustion. -/
def runLifecycle : Nat → (String → Option JobHandler) → Nat → Int → Job →
    QueueStats → Nat → QueueStats × Nat
  | 0, _, _, _, _, stats, inv => (stats, inv)
  | fuel + 1, handlers, cfg, now, job, stats, inv =>
    let r := processJob handlers cfg now true job stats
    let inv1 := inv + (if r.invoked then 1 else 0)
    match r.requeued with
    | none => (r.stats, inv1)
    | some j => runLifecycle fuel handlers cfg j.runAt j r.stats inv1

/-- A registry holding a single always-failing handler, used for the
retry-bound scenario. -/
def alwaysFailHandlers (t : String) : Option JobHandler :=
  if t = "send_notification" then some (fun _ => some "boom") else none

/-- The concrete job driving the retry-bound scenario: fresh
(`attempts = 0`) with its own `maxRetries = 3`. -/
def retryScenarioJob : Job :=
  { id := "job-1", jobType := "send_notification", payload := [],
    createdAt := 0, runAt := 0, attempts := 0, maxRetries := 3 }

/-- A job of a type for which no handler is registered (the
`"unknown_type"` scenario). -/
def unknownTypeJob : Job :=
  { id := "job-2", jobType := "unknown_type", payload := [],
    createdAt := 0, runAt := 0, attempts := 0, maxRetries := 0 }

/-- C1 (counterexample): running the always-failing job with
`maxRetries = 3` through its whole lifecycle executes the handler 3
times and ends with `JobsFailed = 3` and `JobsRetried = 2` — the claim
that `JobsFailed` is incremented exactly once is false, because the
retry path calls `updateStats(false, true)`, whose non-success first
argument also increments `JobsFailed`. -/
theorem retry_bound_jobsFailed_counterexample :
    runLifecycle 10 alwaysFailHandlers 0 0 retryScenarioJob ⟨0, 0, 0⟩ 0
      = (⟨0, 3, 2⟩, 3) ∧
    (runLifecycle 10 alwaysFailHandlers 0 0 retryScenarioJob ⟨0, 0, 0⟩
        0).1.jobsFailed ≠ 1 := by
  decide

/-- C1 (amended): a job with `maxRetries = 3` whose registered handler
fails on every invocation is executed exactly 3 times and then dropped
(the lifecycle ends with no re-enqueue); across the lifecycle
`JobsRetried` is incremented exactly twice, `JobsProcessed` is
unchanged, and `JobsFailed` is incremented three times — once per
failed attempt, because `updateStats` counts a failure on the retry
path as well as on the terminal one. -/
theorem retry_bound_amended (handlers : String → Option JobHandler)
    (errf : Job → String) (job : Job) (st : QueueStats) (now : Int)
    (inv : Nat)
    (hh : handlers job.jobType = some (fun j => some (errf j)))
    (ha : job.attempts = 0) (hm : job.maxRetries = 3) :
    runLifecycle 10 handlers 0 now job st inv
      = ({ jobsProcessed := st.jobsProcessed,
           jobsFailed := st.jobsFailed + 3,
           jobsRetried := st.jobsRetried + 2 }, inv + 3) := by
  obtain ⟨i, t, p, c, r, a, m⟩ := job
  change a = 0 at ha
  change m = 3 at hm
  subst ha hm
  change handlers t = _ at hh
  simp +decide [runLifecycle, processJob, hh, updateStats,
    effectiveMaxRetries]

/-- Closed witness for the amended retry-bound theorem at the concrete
scenario registry and job. -/
theorem retry_bound_amended_witness :
    runLifecycle 10 alwaysFailHandlers 0 0 retryScenarioJob ⟨0, 0, 0⟩ 0
      = ({ jobsProcessed := 0, jobsFailed := 0 + 3,
           jobsRetried := 0 + 2 }, 0 + 3) :=
  retry_bound_amended alwaysFailHandlers (fun _ => "boom")
    retryScenarioJob ⟨0, 0, 0⟩ 0 0 rfl rfl rfl

/-- C2: whenever `processJob` re-enqueues a job for retry, the retried
job's `runAt` is `now` plus `attempts * 1 minute` (linear in the
incremented attempt count), the attempt count is incremented by one,
and — provided the failed execution ran no earlier than the job's own
due time, as the claim protocol guarantees — the new `runAt` is
strictly later than the previous one. -/
theorem backoff_linear (handlers : String → Option JobHandler)
    (cfg : Nat) (now : Int) (job : Job) (st : QueueStats) (j2 : Job)
    (h : (processJob handlers cfg now true job st).requeued = some j2) :
    j2.runAt = now + ((job.attempts : Int) + 1) * 60 ∧
    j2.attempts = job.attempts + 1 ∧
    (job.runAt ≤ now → job.runAt < j2.runAt) := by
  unfold processJob at h
  rcases hh : handlers job.jobType with _ | handler
  · simp [hh] at h
  · rcases he : handler { job with attempts := job.attempts + 1 } with _ | err
    · simp [hh, he] at h
    · simp only [hh, he] at h
      by_cases hlt :
          job.attempts + 1 < effectiveMaxRetries job.maxRetries cfg
      · rw [if_pos hlt] at h
        simp at h
        subst h
        refine ⟨by push_cast; ring, rfl, ?_⟩
        intro hle
        simp only []
        omega
      · rw [if_neg hlt] at h
        simp at h

/-- Closed witness for the backoff theorem: the first retry of the
scenario job, claimed at time 5, is re-enqueued for time 65. -/
theorem backoff_linear_witness :
    ({ retryScenarioJob with attempts := 1, runAt := 65 } : Job).runAt
        = 5 + (((retryScenarioJob.attempts : Int)) + 1) * 60 ∧
    ({ retryScenarioJob with attempts := 1, runAt := 65 } : Job).attempts
        = retryScenarioJob.attempts + 1 ∧
    (retryScenarioJob.runAt ≤ 5 →
      retryScenarioJob.runAt
        < ({ retryScenarioJob with attempts := 1, runAt := 65 } : Job).runAt) :=
  backoff_linear alwaysFailHandlers 0 5 retryScenarioJob ⟨0, 0, 0⟩
    { retryScenarioJob with attempts := 1, runAt := 65 } (by decide)

/-- C3 (counterexample): processing the `"unknown_type"` job drops it
without retry and returns nil, but `JobsFailed` goes from 0 to 1 — the
claim that `JobsFailed` is unaffected is false, because the no-handler
path still calls `updateStats(false, false)`. -/
theorem unregistered_type_counterexample :
    processJob alwaysFailHandlers 3 0 true unknownTypeJob ⟨0, 0, 0⟩
      = ⟨⟨0, 1, 0⟩, none, none, false⟩ ∧
    (processJob alwaysFailHandlers 3 0 true unknownTypeJob
        ⟨0, 0, 0⟩).stats.jobsFailed ≠ 0 := by
  decide

/-- C3 (amended): a claimed job whose type has no registered handler is
dropped without retry (never re-enqueued), no handler is invoked, nil
is returned, and `JobsProcessed` and `JobsRetried` are unchanged — but
`JobsFailed` is incremented by one. -/
theorem unregistered_type_amended (handlers : String → Option JobHandler)
    (cfg : Nat) (now : Int) (enqueueOk : Bool) (job : Job)
    (st : QueueStats) (hh : handlers job.jobType = none) :
    processJob handlers cfg now enqueueOk job st
      = ⟨{ st with jobsFailed := st.jobsFailed + 1 }, none, none, false⟩ := by
  unfold processJob
  rw [hh]
  rfl

/-- Closed witness for the amended unregistered-type theorem. -/
theorem unregistered_type_amended_witness :
    processJob alwaysFailHandlers 3 0 true unknownTypeJob ⟨2, 5, 7⟩
      = ⟨⟨2, 6, 7⟩, none, none, false⟩ :=
  unregistered_type_amended alwaysFailHandlers 3 0 true unknownTypeJob
    ⟨2, 5, 7⟩ rfl

/-- Redis `ZAdd` on the `job_queue` sorted set: membership is by value,
so adding an existing member replaces its score (lines 187-190).  An
entry is a `(score, member)` pair with the score the job's
`RunAt.Unix()` value. -/
def zadd (entries : List (Int × String)) (score : Int) (member : String) :
    List (Int × String) :=
  entries.filter (fun p => decide (p.2 ≠ member)) ++ [(score, member)]

/-- Job construction in `Queue.Enqueue` (lines 155-167): a fresh id,
`runAt = now + delay`, `attempts = 0` and the queue-config
`maxRetries`. -/
def newJob (id jobType : String) (payload : List (String × String))
    (now delay : Int) (cfgMaxRetries : Nat) : Job :=
  { id := id, jobType := jobType, payload := payload, createdAt := now,
    runAt := now + delay, attempts := 0, maxRetries := cfgMaxRetries }

/-- Transcription of `Queue.enqueueJob` (lines 175-201): serialize the
job (`encode` stands for `json.Marshal`) and `ZAdd` it with score
`job.RunAt.Unix()`. -/
def enqueueJob (encode : Job → String) (entries : List (Int × String))
    (job : Job) : List (Int × String) :=
  zadd entries job.runAt (encode job)

/-- Eligibility of a stored entry at poll time `now`: the
`ZRangeByScore` window `[0, now]` of `Queue.processNextJob` (lines
236-241). -/
def eligible (now : Int) (p : Int × String) : Bool :=
  decide (0 ≤ p.1) && decide (p.1 ≤ now)

/-- Selection of the entry with the lowest score, the head of the
ascending `ZRangeByScore` result (`Count: 1`).  Ties are broken
arbitrarily, as in the store. -/
def pickMin : List (Int × String) → Option (Int × String)
  | [] => none
  | e :: es =>
    match pickMin es with
    | none => some e
    | some a => if e.1 ≤ a.1 then some e else some a

/-- The claim query of `Queue.processNextJob`: the due entry with the
lowest score, if any. -/
def claimNext (entries : List (Int × String)) (now : Int) :
    Option (Int × String) :=
  pickMin (entries.filter (eligible now))

/-- Transcription of `Queue.processNextJob` (lines 230-272): claim the
earliest due entry, `ZRem` it by member value, deserialize (`decode`
stands for `json.Unmarshal`; `none` is a failed unmarshal, which is
logged and answered with a nil error), then run `processJob`, applying
its retry re-insertion to the store.  The result is the new store
contents, the stats, the returned error, and whether a handler ran.
The `removed == 0` race of line 259 cannot fire in this
single-process model, since the claimed entry is present. -/
def processNextJob (encode : Job → String) (decode : String → Option Job)
    (handlers : String → Option JobHandler) (cfgMaxRetries : Nat)
    (entries : List (Int × String)) (now : Int) (enqueueOk : Bool)
    (stats : QueueStats) :
    List (Int × String) × QueueStats × Option String × Bool :=
  match claimNext entries now with
  | none => (entries, stats, none, false)
  | some e =>
    let entries1 := entries.filter (fun p => decide (p.2 ≠ e.2))
    match decode e.2 with
    | none => (entries1, stats, none, false)
    | some job =>
      let r := processJob handlers cfgMaxRetries now enqueueOk job stats
      match r.requeued with
      | none => (entries1, r.stats, r.ret, r.invoked)
      | some j2 => (enqueueJob encode entries1 j2, r.stats, r.ret, r.invoked)

/-- The minimum-pick returns an element of its input list. -/
theorem pickMin_mem {l : List (Int × String)} {e : Int × String}
    (h : pickMin l = some e) : e ∈ l := by
  induction l with
  | nil => simp [pickMin] at h
  | cons a as ih =>
    rw [pickMin] at h
    rcases hm : pickMin as with _ | b
    · rw [hm] at h
      simp at h
      simp [h]
    · rw [hm] at h
      by_cases hab : a.1 ≤ b.1
      · simp [hab] at h
        rw [← h]
        exact List.mem_cons_self a as
      · simp [hab] at h
        rw [h] at hm
        exact List.mem_cons_of_mem a (ih hm)

/-- Every entry returned by the claim query is due: its score lies in
`[0, now]`. -/
theorem claimNext_due {entries : List (Int × String)} {now : Int}
    {e : Int × String} (h : claimNext entries now = some e) :
    0 ≤ e.1 ∧ e.1 ≤ now := by
  have hmem := pickMin_mem h
  have := (List.mem_filter.mp hmem).2
  simpa [eligible, Bool.and_eq_true, decide_eq_true_eq] using this

/-- After a `zadd`, any stored entry carrying the added member has the
added score: membership in the sorted set is by value, and `zadd`
replaced any previous entry with that member. -/
theorem zadd_member_score {entries : List (Int × String)} {s : Int}
    {m : String} {e : Int × String} (hmem : e ∈ zadd entries s m)
    (hm : e.2 = m) : e = (s, m) := by
  unfold zadd at hmem
  rcases List.mem_append.mp hmem with hL | hR
  · have := (List.mem_filter.mp hL).2
    simp [hm] at this
  · simpa using hR

/-- C6: a job enqueued at time `t0` with a one-hour delay is stored
with score `t0 + 3600`; a poll at any time `now < t0 + 3600` never
claims it (every claimed entry has score at most `now`, and the only
entry with the job's serialized form has score `t0 + 3600`), and its
entry satisfies the claim query's eligibility window exactly when
`now ≥ runAt`. -/
theorem due_time_respected (encode : Job → String)
    (entries : List (Int × String)) (id jobType : String)
    (payload : List (String × String)) (cfgMaxRetries : Nat)
    (t0 now : Int) :
    (∀ e, claimNext
        (enqueueJob encode entries
          (newJob id jobType payload t0 3600 cfgMaxRetries)) now = some e →
      now < t0 + 3600 →
      e.2 ≠ encode (newJob id jobType payload t0 3600 cfgMaxRetries)) ∧
    (0 ≤ t0 →
      (eligible now ((newJob id jobType payload t0 3600 cfgMaxRetries).runAt,
          encode (newJob id jobType payload t0 3600 cfgMaxRetries)) = true ↔
        t0 + 3600 ≤ now)) := by
  constructor
  · intro e hclaim hnow hm
    have hdue := claimNext_due hclaim
    have hmem := pickMin_mem hclaim
    have hmem2 := (List.mem_filter.mp hmem).1
    have heq := zadd_member_score hmem2 hm
    have hscore : e.1 = t0 + 3600 := by
      rw [heq]
      rfl
    omega
  · intro ht0
    simp only [eligible, newJob, Bool.and_eq_true, decide_eq_true_eq]
    constructor
    · intro hand
      exact hand.2
    · intro hle
      exact ⟨by omega, hle⟩

/-- Closed witness for the due-time theorem: with one old due entry in
the store, a poll one hundred seconds in never claims the job enqueued
for `t0 + 3600 = 3600`, and that job's entry is eligible at exactly
`now = 3600`. -/
theorem due_time_respected_witness :
    ("old" : String) ≠ "j1" ∧
    (eligible 3600 ((newJob "j1" "t" [] 0 3600 3).runAt, "j1") = true ↔
      (0 : Int) + 3600 ≤ 3600) :=
  ⟨(due_time_respected (fun j => j.id) [(0, "old")] "j1" "t" [] 3 0
      100).1 (0, "old") (by decide) (by decide),
   (due_time_respected (fun j => j.id) [(0, "old")] "j1" "t" [] 3 0
      3600).2 (by decide)⟩

/-- C9: a claimed entry whose serialized form fails to deserialize is
removed from the store and permanently dropped: `processNextJob`
returns a nil error, invokes no handler, re-enqueues nothing, and
leaves every stats counter unchanged. -/
theorem malformed_entry_dropped (encode : Job → String)
    (decode : String → Option Job)
    (handlers : String → Option JobHandler) (cfgMaxRetries : Nat)
    (entries : List (Int × String)) (now : Int) (enqueueOk : Bool)
    (stats : QueueStats) (e : Int × String)
    (hclaim : claimNext entries now = some e)
    (hdecode : decode e.2 = none) :
    processNextJob encode decode handlers cfgMaxRetries entries now
        enqueueOk stats
      = (entries.filter (fun p => decide (p.2 ≠ e.2)), stats, none,
         false) := by
  unfold processNextJob
  rw [hclaim]
  simp only [hdecode]

/-- Closed witness for the malformed-entry theorem: a store holding one
undecodable member. -/
theorem malformed_entry_dropped_witness :
    processNextJob (fun j => j.id) (fun _ => none) alwaysFailHandlers 3
        [(0, "garbage")] 0 true ⟨1, 2, 3⟩
      = ([], ⟨1, 2, 3⟩, none, false) :=
  malformed_entry_dropped (fun j => j.id) (fun _ => none)
    alwaysFailHandlers 3 [(0, "garbage")] 0 true ⟨1, 2, 3⟩
    (0, "garbage") (by decide) rfl

/-- Lifecycle state of the worker `Manager`
(`internal/worker/manager.go`): the running flag guarded by the mutex,
plus the effects `Shutdown` performs. -/
structure ManagerState where
  isRunning : Bool
  cancelled : Bool
  expirationStopped : Bool
  queueStopped : Bool
  dbClosed : Bool
  redisClosed : Bool
deriving Repr, DecidableEq

/-- Transcription of `Manager.Shutdown` (manager.go lines 168-217):
under the mutex, a manager that is not running returns nil at once;
otherwise the lifecycle context is cancelled, the workers are awaited
(a deadline overrun is only logged), each component is stopped and the
store connections closed (their errors are only logged, never
returned), `isRunning` is cleared, and nil is returned.  The function
is total, which is the embedded form of the no-panic property. -/
def shutdown (m : ManagerState) : ManagerState × Option String :=
  if m.isRunning = false then (m, none)
  else
    ({ m with
        isRunning := false
        cancelled := true
        expirationStopped := true
        queueStopped := true
        dbClosed := true
        redisClosed := true }, none)

/-- C7: `Shutdown` returns nil from any state, a second `Shutdown`
right after also returns nil, a never-started manager is left untouched
with a nil result, and after two calls the manager is not running.  As
a total function the model cannot panic. -/
theorem shutdown_idempotent (m : ManagerState) :
    (shutdown m).2 = none ∧
    (shutdown (shutdown m).1).2 = none ∧
    shutdown { m with isRunning := false }
      = ({ m with isRunning := false }, none) ∧
    (shutdown (shutdown m).1).1.isRunning = false := by
  cases hm : m.isRunning <;> simp [shutdown, hm]

/-- C10: when a handler fails with retries remaining but the retry
re-insertion itself fails (`enqueueOk = false`), the job is counted as
a permanent failure: `JobsFailed` is incremented, `JobsRetried` and
`JobsProcessed` are unchanged, the job is not re-enqueued, and
`processJob` returns the original handler error. -/
theorem retry_insert_failure (handlers : String → Option JobHandler)
    (h : JobHandler) (job : Job) (err : String) (st : QueueStats)
    (now : Int) (cfg : Nat)
    (hh : handlers job.jobType = some h)
    (he : h { job with attempts := job.attempts + 1 } = some err)
    (hr : job.attempts + 1 < effectiveMaxRetries job.maxRetries cfg) :
    processJob handlers cfg now false job st
      = ⟨{ st with jobsFailed := st.jobsFailed + 1 }, none, some err,
         true⟩ := by
  unfold processJob
  rw [hh]
  simp only [he]
  rw [if_pos hr]
  rfl

/-- Closed witness for the retry-insertion-failure theorem. -/
theorem retry_insert_failure_witness :
    processJob alwaysFailHandlers 0 0 false retryScenarioJob ⟨0, 0, 0⟩
      = ⟨⟨0, 1, 0⟩, none, some "boom", true⟩ :=
  retry_insert_failure alwaysFailHandlers (fun _ => some "boom")
    retryScenarioJob "boom" ⟨0, 0, 0⟩ 0 0 rfl rfl (by decide)

/-- Observable outcome of one sweep of the expiration worker: the size
of each `GetExpired` fetch in order, the `totalProcessed` counter, the
number of 100ms inter-batch delays that were waited, and the final
store contents. -/
structure SweepResult (σ : Type) where
  fetchSizes : List Nat
  totalProcessed : Nat
  delays : Nat
  finalStore : σ
deriving Repr, DecidableEq

/-- Transcription of the batch loop of
`ExpirationWorker.processExpiredStories` (queue.go lines 564-614),
parameterised over the content store: fetch up to `batchSize` items at
the current offset; stop on an empty fetch; process (soft-delete) each
fetched item and add them to `totalProcessed`; stop when the fetch was
short of `batchSize`; advance `offset` by `batchSize`; stop when
`offset > 10000`; otherwise wait 100ms and loop.  Per-item processing
errors (`continue` in the source) are not modelled: every delete
succeeds.  `fuel` bounds the recursion; the sufficiency proof below
shows 10002 units always complete the loop. -/
def processExpiredLoop {σ α : Type} (getExpired : σ → Nat → Nat → List α)
    (deleteBatch : σ → Nat → Nat → σ) (batchSize : Nat) :
    Nat → σ → Nat → Nat → List Nat → Nat → Option (SweepResult σ)
  | 0, _, _, _, _, _ => none
  | fuel + 1, store, offset, total, sizes, delays =>
    let stories := getExpired store batchSize offset
    let sizes1 := sizes ++ [stories.length]
    if stories.length = 0 then some ⟨sizes1, total, delays, store⟩
    else
      let store1 := deleteBatch store offset stories.length
      let total1 := total + stories.length
      if stories.length < batchSize then some ⟨sizes1, total1, delays, store1⟩
      else
        let offset1 := offset + batchSize
        if 10000 < offset1 then some ⟨sizes1, total1, delays, store1⟩
        else
          processExpiredLoop getExpired deleteBatch batchSize fuel store1
            offset1 total1 sizes1 (delays + 1)

/-- `StoryStoreImpl.GetExpired` (story_store.go lines 244-261): the
expired, not-yet-deleted stories ordered by `expires_at`, windowed by
`LIMIT`/`OFFSET`.  The store state is that ordered list. -/
def storyGetExpired {α : Type} (store : List α) (limit offset : Nat) :
    List α :=
  (store.drop offset).take limit

/-- Effect on the `GetExpired` view of soft-deleting every story of a
fetched batch (`StoryStoreImpl.Delete` sets `deleted_at`, and
`GetExpired` filters on `deleted_at IS NULL`): the batch occupied
positions `offset ..< offset + count` of the view and disappears from
it. -/
def storyDeleteBatch {α : Type} (store : List α) (offset count : Nat) :
    List α :=
  store.take offset ++ store.drop (offset + count)

/-- One sweep of `ExpirationWorker.processExpiredStories` against the
real story store. -/
def processExpiredStories {α : Type} (batchSize : Nat) (store : List α) :
    Option (SweepResult (List α)) :=
  processExpiredLoop storyGetExpired storyDeleteBatch batchSize 10002
    store 0 0 [] 0

/-- An arbitrary sequence of content-store responses, indexed by fetch
offset: the store answers a `GetExpired(limit, offset)` call with
`min (resp offset) limit` items (a SQL `LIMIT` never returns more than
`limit` rows). -/
def oracleGetExpired (resp : Nat → Nat) :
    Unit → Nat → Nat → List Unit :=
  fun _ limit offset => List.replicate (min (resp offset) limit) ()

/-- One sweep of the batch loop against an arbitrary response
sequence. -/
def sweepWithResponses (resp : Nat → Nat) (batchSize fuel : Nat) :
    Option (SweepResult Unit) :=
  processExpiredLoop (oracleGetExpired resp) (fun st _ _ => st) batchSize
    fuel () 0 0 [] 0

/-- Stepping lemma for the batch loop: a full batch
(`n = batchSize` items, with the ceiling not yet reached) processes its
items, advances the offset, and continues after the inter-batch
delay. -/
theorem processExpiredLoop_continue {σ α : Type}
    (ge : σ → Nat → Nat → List α) (db : σ → Nat → Nat → σ)
    (bs fuel : Nat) (st : σ) (off tot : Nat) (sizes : List Nat)
    (delays n : Nat) (hlen : (ge st bs off).length = n) (hn0 : n ≠ 0)
    (hnbs : ¬ n < bs) (hoff : ¬ 10000 < off + bs) :
    processExpiredLoop ge db bs (fuel + 1) st off tot sizes delays
      = processExpiredLoop ge db bs fuel (db st off n) (off + bs)
          (tot + n) (sizes ++ [n]) (delays + 1) := by
  rw [processExpiredLoop]
  simp only [hlen]
  rw [if_neg hn0, if_neg hnbs, if_neg hoff]

/-- Stepping lemma for the batch loop: a non-empty partial batch
(`0 < n < batchSize`) processes its items and stops the loop. -/
theorem processExpiredLoop_short {σ α : Type}
    (ge : σ → Nat → Nat → List α) (db : σ → Nat → Nat → σ)
    (bs fuel : Nat) (st : σ) (off tot : Nat) (sizes : List Nat)
    (delays n : Nat) (hlen : (ge st bs off).length = n) (hn0 : n ≠ 0)
    (hlt : n < bs) :
    processExpiredLoop ge db bs (fuel + 1) st off tot sizes delays
      = some ⟨sizes ++ [n], tot + n, delays, db st off n⟩ := by
  rw [processExpiredLoop]
  simp only [hlen]
  rw [if_neg hn0, if_pos hlt]

/-- C4: against the real store semantics, a sweep over 2,500 expired
stories with `batchSize = 1000` performs only TWO fetches, of 1000 and
then 500 items, and processes 1,500 stories, leaving 1,000 expired
stories untouched: the first batch's soft-deletes shrink the
`GetExpired` view while the offset still advances, so the second fetch
at offset 1000 skips 1,000 of the 1,500 remaining stories.  The
claimed three fetches of 1000, 1000 and 500 do not happen. -/
theorem sweep_2500_two_batches :
    processExpiredStories 1000 (List.replicate 2500 ())
      = some ⟨[1000, 500], 1500, 1, List.replicate 1000 ()⟩ ∧
    ([1000, 500] : List Nat) ≠ [1000, 1000, 500] := by
  refine ⟨?_, by decide⟩
  have e1 : storyGetExpired (List.replicate 2500 ()) 1000 0
      = List.replicate 1000 () := by
    unfold storyGetExpired
    rw [List.drop_replicate, List.take_replicate]
    congr 1
  have e1l : (storyGetExpired (List.replicate 2500 ()) 1000 0).length
      = 1000 := by
    rw [e1, List.length_replicate]
  have e2 : storyDeleteBatch (List.replicate 2500 ()) 0 1000
      = List.replicate 1500 () := by
    unfold storyDeleteBatch
    rw [List.take_zero, List.nil_append, List.drop_replicate]
  have e3 : storyGetExpired (List.replicate 1500 ()) 1000 1000
      = List.replicate 500 () := by
    unfold storyGetExpired
    rw [List.drop_replicate, List.take_replicate]
    congr 1
  have e3l : (storyGetExpired (List.replicate 1500 ()) 1000 1000).length
      = 500 := by
    rw [e3, List.length_replicate]
  have e4 : storyDeleteBatch (List.replicate 1500 ()) 1000 500
      = List.replicate 1000 () := by
    unfold storyDeleteBatch
    rw [List.take_replicate, List.drop_replicate,
      (by decide : 1500 - (1000 + 500) = 0), List.replicate_zero,
      List.append_nil]
    congr 1
  show processExpiredLoop storyGetExpired storyDeleteBatch 1000
      (10001 + 1) (List.replicate 2500 ()) 0 0 [] 0 = _
  rw [processExpiredLoop_continue storyGetExpired storyDeleteBatch 1000
    10001 (List.replicate 2500 ()) 0 0 [] 0 1000 e1l (by decide)
    (by decide) (by decide), e2]
  show processExpiredLoop storyGetExpired storyDeleteBatch 1000
      (10000 + 1) (List.replicate 1500 ()) 1000 1000 [1000] 1 = _
  rw [processExpiredLoop_short storyGetExpired storyDeleteBatch 1000
    10000 (List.replicate 1500 ()) 1000 1000 [1000] 1 500 e3l
    (by decide) (by decide), e4]
  rfl

/-- Stepping lemma for the batch loop: a full batch that pushes the
offset past the 10,000 ceiling processes its items and stops the
loop. -/
theorem processExpiredLoop_ceiling {σ α : Type}
    (ge : σ → Nat → Nat → List α) (db : σ → Nat → Nat → σ)
    (bs fuel : Nat) (st : σ) (off tot : Nat) (sizes : List Nat)
    (delays n : Nat) (hlen : (ge st bs off).length = n) (hn0 : n ≠ 0)
    (hnbs : ¬ n < bs) (hoff : 10000 < off + bs) :
    processExpiredLoop ge db bs (fuel + 1) st off tot sizes delays
      = some ⟨sizes ++ [n], tot + n, delays, db st off n⟩ := by
  rw [processExpiredLoop]
  simp only [hlen]
  rw [if_neg hn0, if_neg hnbs, if_pos hoff]

/-- Invariant-carrying induction on the batch loop over an arbitrary
response sequence: from any offset at most 10,000 and enough fuel, the
loop completes, processes at most `(10000 - offset) + batchSize`
further items, and finishes with one more fetch than inter-batch
delays. -/
theorem sweepWithResponses_aux (resp : Nat → Nat) (bs : Nat) :
    ∀ fuel offset total sizes delays, offset ≤ 10000 →
      10002 ≤ fuel + offset → delays = sizes.length →
      ∃ r, processExpiredLoop (oracleGetExpired resp) (fun st _ _ => st)
          bs fuel () offset total sizes delays = some r ∧
        r.totalProcessed ≤ total + (10000 - offset) + bs ∧
        r.delays + 1 = r.fetchSizes.length := by
  intro fuel
  induction fuel with
  | zero =>
    intro offset total sizes delays h1 h2 _
    omega
  | succ fuel ih =>
    intro offset total sizes delays h1 h2 hinv
    rw [processExpiredLoop]
    simp only [oracleGetExpired, List.length_replicate]
    have hnbs : min (resp offset) bs ≤ bs := Nat.min_le_right _ _
    by_cases h0 : min (resp offset) bs = 0
    · rw [if_pos h0]
      refine ⟨_, rfl, ?_, by simp [hinv]⟩
      show total ≤ total + (10000 - offset) + bs
      omega
    · by_cases hlt : min (resp offset) bs < bs
      · rw [if_neg h0, if_pos hlt]
        refine ⟨_, rfl, ?_, by simp [hinv]⟩
        show total + min (resp offset) bs ≤ total + (10000 - offset) + bs
        omega
      · by_cases hc : 10000 < offset + bs
        · rw [if_neg h0, if_neg hlt, if_pos hc]
          refine ⟨_, rfl, ?_, by simp [hinv]⟩
          show total + min (resp offset) bs ≤ total + (10000 - offset) + bs
          omega
        · rw [if_neg h0, if_neg hlt, if_neg hc]
          obtain ⟨r, hr, hb, hd⟩ := ih (offset + bs)
            (total + min (resp offset) bs)
            (sizes ++ [min (resp offset) bs]) (delays + 1) (by omega)
            (by omega) (by simp [hinv])
          exact ⟨r, hr, by omega, hd⟩

/-- C5 (amended): against every sequence of content-store responses the
batch loop terminates (10002 fuel units always suffice), stopping on a
short fetch or once the offset passes the 10,000 ceiling; one sweep
processes at most `10000 + batchSize` items — not 10,000, because the
ceiling is checked only after a full batch was already processed — and
one 100ms delay is waited between consecutive fetches (delays =
fetches - 1). -/
theorem sweep_loop_bounded (resp : Nat → Nat) (bs : Nat) :
    ∃ r, sweepWithResponses resp bs 10002 = some r ∧
      r.totalProcessed ≤ 10000 + bs ∧
      r.delays + 1 = r.fetchSizes.length := by
  obtain ⟨r, hr, hb, hd⟩ := sweepWithResponses_aux resp bs 10002 0 0 [] 0
    (by omega) (by omega) rfl
  exact ⟨r, hr, by simpa using hb, hd⟩

/-- C5 (counterexample): with `batchSize = 1000` and a store that
answers every fetch with a full batch, one sweep processes 11,000
items — the claimed hard bound of 10,000 items per sweep is exceeded,
because the `offset > 10000` check runs only after the batch at offset
10,000 has already been fetched and processed. -/
theorem sweep_ceiling_counterexample :
    (∃ r, sweepWithResponses (fun _ => 1000) 1000 10002 = some r ∧
       r.totalProcessed = 11000) ∧ ¬ (11000 ≤ 10000) := by
  refine ⟨⟨⟨[1000, 1000, 1000, 1000, 1000, 1000, 1000, 1000, 1000, 1000,
    1000], 11000, 10, ()⟩, ?_, rfl⟩, by decide⟩
  have hl : ∀ off, (oracleGetExpired (fun _ => 1000) () 1000 off).length
      = 1000 := by
    intro off
    simp only [oracleGetExpired, List.length_replicate]
    decide
  show processExpiredLoop (oracleGetExpired (fun _ => 1000))
      (fun st _ _ => st) 1000 (10001 + 1) () 0 0 [] 0 = _
  rw [processExpiredLoop_continue (oracleGetExpired (fun _ => 1000))
    (fun st _ _ => st) 1000 10001 () 0 0 [] 0 1000
    (hl 0) (by decide) (by decide) (by decide)]
  show processExpiredLoop (oracleGetExpired (fun _ => 1000))
      (fun st _ _ => st) 1000 (10000 + 1) () 1000 1000 [1000] 1 = _
  rw [processExpiredLoop_continue (oracleGetExpired (fun _ => 1000))
    (fun st _ _ => st) 1000 10000 () 1000 1000 [1000] 1 1000
    (hl 1000) (by decide) (by decide) (by decide)]
  show processExpiredLoop (oracleGetExpired (fun _ => 1000))
      (fun st _ _ => st) 1000 (9999 + 1) () 2000 2000 [1000, 1000] 2 = _
  rw [processExpiredLoop_continue (oracleGetExpired (fun _ => 1000))
    (fun st _ _ => st) 1000 9999 () 2000 2000 [1000, 1000] 2 1000
    (hl 2000) (by decide) (by decide) (by decide)]
  show processExpiredLoop (oracleGetExpired (fun _ => 1000))
      (fun st _ _ => st) 1000 (9998 + 1) () 3000 3000 [1000, 1000, 1000] 3 = _
  rw [processExpiredLoop_continue (oracleGetExpired (fun _ => 1000))
    (fun st _ _ => st) 1000 9998 () 3000 3000 [1000, 1000, 1000] 3 1000
    (hl 3000) (by decide) (by decide) (by decide)]
  show processExpiredLoop (oracleGetExpired (fun _ => 1000))
      (fun st _ _ => st) 1000 (9997 + 1) () 4000 4000 [1000, 1000, 1000, 1000] 4 = _
  rw [processExpiredLoop_continue (oracleGetExpired (fun _ => 1000))
    (fun st _ _ => st) 1000 9997 () 4000 4000 [1000, 1000, 1000, 1000] 4 1000
    (hl 4000) (by decide) (by decide) (by decide)]
  show processExpiredLoop (oracleGetExpired (fun _ => 1000))
      (fun st _ _ => st) 1000 (9996 + 1) () 5000 5000 [1000, 1000, 1000, 1000, 1000] 5 = _
  rw [processExpiredLoop_continue (oracleGetExpired (fun _ => 1000))
    (fun st _ _ => st) 1000 9996 () 5000 5000 [1000, 1000, 1000, 1000, 1000] 5 1000
    (hl 5000) (by decide) (by decide) (by decide)]
  show processExpiredLoop (oracleGetExpired (fun _ => 1000))
      (fun st _ _ => st) 1000 (9995 + 1) () 6000 6000 [1000, 1000, 1000, 1000, 1000, 1000] 6 = _
  rw [processExpiredLoop_continue (oracleGetExpired (fun _ => 1000))
    (fun st _ _ => st) 1000 9995 () 6000 6000 [1000, 1000, 1000, 1000, 1000, 1000] 6 1000
    (hl 6000) (by decide) (by decide) (by decide)]
  show processExpiredLoop (oracleGetExpired (fun _ => 1000))
      (fun st _ _ => st) 1000 (9994 + 1) () 7000 7000 [1000, 1000, 1000, 1000, 1000, 1000, 1000] 7 = _
  rw [processExpiredLoop_continue (oracleGetExpired (fun _ => 1000))
    (fun st _ _ => st) 1000 9994 () 7000 7000 [1000, 1000, 1000, 1000, 1000, 1000, 1000] 7 1000
    (hl 7000) (by decide) (by decide) (by decide)]
  show processExpiredLoop (oracleGetExpired (fun _ => 1000))
      (fun st _ _ => st) 1000 (9993 + 1) () 8000 8000 [1000, 1000, 1000, 1000, 1000, 1000, 1000, 1000] 8 = _
  rw [processExpiredLoop_continue (oracleGetExpired (fun _ => 1000))
    (fun st _ _ => st) 1000 9993 () 8000 8000 [1000, 1000, 1000, 1000, 1000, 1000, 1000, 1000] 8 1000
    (hl 8000) (by decide) (by decide) (by decide)]
  show processExpiredLoop (oracleGetExpired (fun _ => 1000))
      (fun st _ _ => st) 1000 (9992 + 1) () 9000 9000 [1000, 1000, 1000, 1000, 1000, 1000, 1000, 1000, 1000] 9 = _
  rw [processExpiredLoop_continue (oracleGetExpired (fun _ => 1000))
    (fun st _ _ => st) 1000 9992 () 9000 9000 [1000, 1000, 1000, 1000, 1000, 1000, 1000, 1000, 1000] 9 1000
    (hl 9000) (by decide) (by decide) (by decide)]
  show processExpiredLoop (oracleGetExpired (fun _ => 1000))
      (fun st _ _ => st) 1000 (9991 + 1) () 10000 10000 [1000, 1000, 1000, 1000, 1000, 1000, 1000, 1000, 1000, 1000] 10 = _
  rw [processExpiredLoop_ceiling (oracleGetExpired (fun _ => 1000))
    (fun st _ _ => st) 1000 9991 () 10000 10000 [1000, 1000, 1000, 1000, 1000, 1000, 1000, 1000, 1000, 1000] 10 1000
    (hl 10000) (by decide) (by decide) (by decide)]
  rfl

/-- The metrics record built by `ExpirationWorker.recordMetrics`
(queue.go lines 660-677): processed count, duration in milliseconds,
the timestamp, and the worker name. -/
structure MetricsEntry where
  processedCount : Nat
  durationMs : Nat
  timestamp : Int
  worker : String
deriving Repr, DecidableEq

/-- Transcription of `ExpirationWorker.recordMetrics`: the cache key is
`"metrics:expiration:" ++ timestamp`, and the value is stored with a
retention of 86400 seconds (24 hours). -/
def recordMetrics (processed durationMs : Nat) (timestamp : Int) :
    String × MetricsEntry × Nat :=
  ("metrics:expiration:" ++ toString timestamp,
   ⟨processed, durationMs, timestamp, "expiration"⟩, 86400)

/-- The metrics step at the end of
`ExpirationWorker.processExpiredStories` (lines 616-628): metrics are
recorded only when `totalProcessed > 0`. -/
def sweepMetrics (totalProcessed durationMs : Nat) (timestamp : Int) :
    Option (String × MetricsEntry × Nat) :=
  if 0 < totalProcessed then
    some (recordMetrics totalProcessed durationMs timestamp)
  else none

/-- C8 (counterexample): a sweep of an empty store completes with zero
processed items and records no metrics entry at all — the claim that
every completed sweep records one is false, because the source guards
the `recordMetrics` call with `totalProcessed > 0`. -/
theorem sweep_metrics_zero_counterexample :
    processExpiredStories 1000 ([] : List Unit) = some ⟨[0], 0, 0, []⟩ ∧
    sweepMetrics 0 5 0 = none := by
  exact ⟨by decide, rfl⟩

/-- C8 (amended): every completed sweep that processed at least one
item records a metrics entry holding the processed count and the sweep
duration, under the timestamped key `"metrics:expiration:<ts>"`, with a
24-hour (86400 second) retention window. -/
theorem sweep_metrics_recorded {α : Type} (batchSize : Nat)
    (store : List α) (r : SweepResult (List α)) (durationMs : Nat)
    (timestamp : Int)
    (_hr : processExpiredStories batchSize store = some r)
    (hp : 0 < r.totalProcessed) :
    sweepMetrics r.totalProcessed durationMs timestamp
      = some ("metrics:expiration:" ++ toString timestamp,
          ⟨r.totalProcessed, durationMs, timestamp, "expiration"⟩,
          86400) := by
  unfold sweepMetrics recordMetrics
  rw [if_pos hp]

/-- Closed witness for the metrics theorem: a one-item sweep records
its entry with the 24h retention. -/
theorem sweep_metrics_recorded_witness :
    sweepMetrics 1 250 1700000000
      = some ("metrics:expiration:" ++ toString (1700000000 : Int),
          ⟨1, 250, 1700000000, "expiration"⟩, 86400) :=
  sweep_metrics_recorded 1000 (List.replicate 1 ()) ⟨[1], 1, 0, []⟩ 250
    1700000000 (by decide) (by decide)
